import Mathlib

/-
  Verification of the Tasks/Users REST API (src/routes/tasks.js, src/routes/users.js).

  Shallow embedding: the two Express route modules are translated into pure Lean
  functions over an explicit database state `DB` (lists of User and Task documents).
  Request handlers become functions from a request body / query parameters and the
  current `DB` to a response (`Resp`) and the updated `DB`.

  Library behaviour that the routes rely on is modelled explicitly:
  - `JSON.parse` is modelled by `jsonParse` (a strict JSON recursive-descent
    parser; numbers are kept as their raw lexemes, which suffices for the
    JS truthiness tests the code performs).
  - JS `parseInt` is modelled by `jsParseInt` (whitespace skip, optional sign,
    `0x` hex prefix, longest digit prefix, NaN -> `none`).
  - `mongoose.Types.ObjectId.isValid` is modelled by `isValidObjectId`
    (24 hex characters, or any 12-character string).
  - A Mongoose query that casts a malformed id (findById / `$in` with a bad id)
    rejects with a CastError; in a handler whose surrounding try/catch maps
    errors to HTTP 500, this is modelled as a 500 response.
  - Saving a document whose `deadline` was produced from a non-numeric string
    (`new Date(parseInt(s))` = Invalid Date) rejects on save; modelled as 500.
-/

set_option maxRecDepth 4000
set_option linter.unnecessarySeqFocus false
set_option linter.unusedVariables false

namespace MpApi

/-- JSON values as produced by JSON.parse. Numbers keep their raw lexeme;
the only observation the routes make of a parsed value is JS truthiness. -/
inductive Json where
  | null
  | bool (b : Bool)
  | num (raw : String)
  | str (s : String)
  | arr (elems : List Json)
  | obj (fields : List (String × Json))

/-- JSON insignificant whitespace. -/
def jsonWs (c : Char) : Bool :=
  c == ' ' || c == '\t' || c == '\n' || c == '\r'

def skipWsL (cs : List Char) : List Char := cs.dropWhile jsonWs

def hexDigit (c : Char) : Bool :=
  c.isDigit || (97 ≤ c.toNat && c.toNat ≤ 102) || (65 ≤ c.toNat && c.toNat ≤ 70)

def hexVal (c : Char) : Nat :=
  if c.isDigit then c.toNat - 48
  else if 97 ≤ c.toNat && c.toNat ≤ 102 then c.toNat - 87
  else if 65 ≤ c.toNat && c.toNat ≤ 70 then c.toNat - 55
  else 0

/-- Escape characters admitted after a backslash in a JSON string (except u). -/
def escChar (e : Char) : Option Char :=
  if e == '"' || e == '\\' || e == '/' then some e
  else if e == 'b' then some (Char.ofNat 8)
  else if e == 'f' then some (Char.ofNat 12)
  else if e == 'n' then some '\n'
  else if e == 'r' then some '\r'
  else if e == 't' then some '\t'
  else none

/-- Characters of a JSON string literal after the opening quote; returns the
decoded characters and the remainder after the closing quote. -/
def parseStrChars : Nat → List Char → Option (List Char × List Char)
  | 0, _ => none
  | _, [] => none
  | fuel + 1, c :: rest =>
    if c == '"' then some ([], rest)
    else if c == '\\' then
      match rest with
      | [] => none
      | 'u' :: a :: b2 :: c2 :: d :: rest2 =>
        if hexDigit a && hexDigit b2 && hexDigit c2 && hexDigit d then
          let n := hexVal a * 4096 + hexVal b2 * 256 + hexVal c2 * 16 + hexVal d
          (parseStrChars fuel rest2).map (fun p => (Char.ofNat n :: p.1, p.2))
        else none
      | e :: rest2 =>
        match escChar e with
        | some ch => (parseStrChars fuel rest2).map (fun p => (ch :: p.1, p.2))
        | none => none
    else if c.toNat < 32 then none
    else (parseStrChars fuel rest).map (fun p => (c :: p.1, p.2))

def digitsTake (cs : List Char) : List Char × List Char :=
  (cs.takeWhile Char.isDigit, cs.dropWhile Char.isDigit)

/-- Optional fraction part of a JSON number (raw characters). -/
def parseFracPart (cs : List Char) : Option (List Char × List Char) :=
  match cs with
  | '.' :: r =>
    let (fd, r2) := digitsTake r
    if fd.isEmpty then none else some ('.' :: fd, r2)
  | _ => some ([], cs)

/-- Optional exponent part of a JSON number (raw characters). -/
def parseExpPart (cs : List Char) : Option (List Char × List Char) :=
  match cs with
  | c :: r =>
    if c == 'e' || c == 'E' then
      match r with
      | s :: rr =>
        if s == '+' || s == '-' then
          let (ed, r3) := digitsTake rr
          if ed.isEmpty then none else some (c :: s :: ed, r3)
        else
          let (ed, r3) := digitsTake r
          if ed.isEmpty then none else some (c :: ed, r3)
      | [] => none
    else some ([], cs)
  | [] => some ([], cs)

/-- JSON number: -? (0 | [1-9][0-9]*) frac? exp?  -/
def parseNumTok (cs : List Char) : Option (Json × List Char) :=
  let signAndRest : List Char × List Char :=
    match cs with
    | '-' :: r => (['-'], r)
    | _ => ([], cs)
  match signAndRest.2 with
  | [] => none
  | c :: _ =>
    if !c.isDigit then none
    else
      let (ds, rest) := digitsTake signAndRest.2
      if decide (1 < ds.length) && ds.head? == some '0' then none
      else
        match parseFracPart rest with
        | none => none
        | some (fr, rest2) =>
          match parseExpPart rest2 with
          | none => none
          | some (ex, rest3) =>
            some (.num (String.mk (signAndRest.1 ++ ds ++ fr ++ ex)), rest3)

mutual

/-- One JSON value (strict grammar, as JSON.parse). -/
def parseVal : Nat → List Char → Option (Json × List Char)
  | 0, _ => none
  | fuel + 1, cs =>
    match skipWsL cs with
    | 'n' :: 'u' :: 'l' :: 'l' :: rest => some (.null, rest)
    | 't' :: 'r' :: 'u' :: 'e' :: rest => some (.bool true, rest)
    | 'f' :: 'a' :: 'l' :: 's' :: 'e' :: rest => some (.bool false, rest)
    | '"' :: rest =>
      (parseStrChars (rest.length + 1) rest).map (fun p => (.str (String.mk p.1), p.2))
    | '\x7b' :: rest => parseObjBody fuel rest true
    | '[' :: rest => parseArrBody fuel rest true
    | cs2 => parseNumTok cs2

/-- Items of a JSON array after the opening bracket. -/
def parseArrBody : Nat → List Char → Bool → Option (Json × List Char)
  | 0, _, _ => none
  | fuel + 1, cs, isFirst =>
    match skipWsL cs with
    | ']' :: rest => if isFirst then some (.arr [], rest) else none
    | cs2 =>
      match parseVal fuel cs2 with
      | none => none
      | some (j, rest) =>
        match skipWsL rest with
        | ',' :: rest2 =>
          match parseArrBody fuel rest2 false with
          | some (.arr elems, rest3) => some (.arr (j :: elems), rest3)
          | _ => none
        | ']' :: rest2 => some (.arr [j], rest2)
        | _ => none

/-- Members of a JSON object after the opening brace. -/
def parseObjBody : Nat → List Char → Bool → Option (Json × List Char)
  | 0, _, _ => none
  | fuel + 1, cs, isFirst =>
    match skipWsL cs with
    | '\x7d' :: rest => if isFirst then some (.obj [], rest) else none
    | '"' :: rest =>
      match parseStrChars (rest.length + 1) rest with
      | none => none
      | some (key, rest2) =>
        match skipWsL rest2 with
        | ':' :: rest3 =>
          match parseVal fuel rest3 with
          | none => none
          | some (j, rest4) =>
            match skipWsL rest4 with
            | ',' :: rest5 =>
              match parseObjBody fuel rest5 false with
              | some (.obj fields, rest6) => some (.obj ((String.mk key, j) :: fields), rest6)
              | _ => none
            | '\x7d' :: rest5 => some (.obj [(String.mk key, j)], rest5)
            | _ => none
        | _ => none
    | _ => none

end

/-- JSON.parse: whole input must be consumed (modulo trailing whitespace). -/
def jsonParse (s : String) : Option Json :=
  match parseVal (s.length + 8) s.toList with
  | some (j, rest) => if (skipWsL rest).isEmpty then some j else none
  | none => none

/-- A JSON number lexeme denotes zero iff no nonzero digit occurs before the
exponent marker. -/
def numIsZero (raw : String) : Bool :=
  (raw.toList.takeWhile (fun c => c != 'e' && c != 'E')).all
    (fun c => !c.isDigit || c == '0')

/-- JS truthiness of a parsed JSON value. -/
def Json.truthy : Json → Bool
  | .null => false
  | .bool b => b
  | .num raw => !numIsZero raw
  | .str s => s != ""
  | .arr _ => true
  | .obj _ => true

/-- Result of parseJSONParam (routes/tasks.js lines 9-16, routes/users.js 10-17):
`undef` for an absent (or JS-falsy, i.e. empty-string) parameter, `nullv` for the
JS null result (a parse error, or the valid JSON text null which JSON.parse also
returns as null), `val j` otherwise. -/
inductive JParam where
  | undef
  | nullv
  | val (j : Json)

def JParam.isNull : JParam → Bool
  | .nullv => true
  | _ => false

def JParam.truthy : JParam → Bool
  | .val j => j.truthy
  | _ => false

/-- parseJSONParam from the route modules. -/
def parseJSONParam (p : Option String) : JParam :=
  match p with
  | none => .undef
  | some s =>
    if s == "" then .undef
    else
      match jsonParse s with
      | none => .nullv
      | some .null => .nullv
      | some j => .val j

/-- The JS expression a || b on parseJSONParam results (users.js lines 24, 100). -/
def jsOrP (a b : JParam) : JParam := if a.truthy then a else b

/-- JS whitespace accepted by parseInt. -/
def jsWs (c : Char) : Bool :=
  c == ' ' || c == '\t' || c == '\n' || c == '\r' || c == Char.ofNat 11 || c == Char.ofNat 12

def decDigitsVal (cs : List Char) : Nat :=
  cs.foldl (fun acc c => acc * 10 + (c.toNat - 48)) 0

def hexDigitsVal (cs : List Char) : Nat :=
  cs.foldl (fun acc c => acc * 16 + hexVal c) 0

/-- JS parseInt (radix unspecified): skip whitespace, optional sign, 0x hex
prefix, then the longest digit prefix; NaN (here none) if there are no digits. -/
def jsParseInt (s : String) : Option Int :=
  let cs := s.toList.dropWhile jsWs
  let signAndRest : Bool × List Char :=
    match cs with
    | '-' :: r => (true, r)
    | '+' :: r => (false, r)
    | _ => (false, cs)
  let neg := signAndRest.1
  match signAndRest.2 with
  | '0' :: x :: r =>
    if x == 'x' || x == 'X' then
      let hd := r.takeWhile hexDigit
      if hd.isEmpty then none
      else some (if neg then -(hexDigitsVal hd : Int) else (hexDigitsVal hd : Int))
    else
      let dd := ('0' :: x :: r).takeWhile Char.isDigit
      some (if neg then -(decDigitsVal dd : Int) else (decDigitsVal dd : Int))
  | rest =>
    let dd := rest.takeWhile Char.isDigit
    if dd.isEmpty then none
    else some (if neg then -(decDigitsVal dd : Int) else (decDigitsVal dd : Int))

/-- mongoose.Types.ObjectId.isValid: a 24-character hex string, or any
12-character string. -/
def isValidObjectId (s : String) : Bool :=
  (s.length == 24 && s.toList.all hexDigit) || s.length == 12

/-- A stored Task document. `deadline` holds the epoch milliseconds of the
stored Date (documents only ever get a deadline through a save that succeeded,
i.e. through a parseInt that produced a number). -/
structure Task where
  tid : String
  name : String
  description : String
  deadline : Int
  completed : Bool
  assignedUser : String
  assignedUserName : String
deriving DecidableEq

/-- A stored User document. -/
structure User where
  uid : String
  name : String
  email : String
  pendingTasks : List String
deriving DecidableEq

/-- The database: the two collections. Document ids are system-generated and
unique; helpers that update "the" matching document map over all matches. -/
structure DB where
  users : List User := []
  tasks : List Task := []
deriving DecidableEq

/-- Response payloads the handlers produce (the data field of the envelope). -/
inductive RData where
  | empty
  | taskD (t : Task)
  | userD (u : User)
  | mismatch (provided actual : String)
  | idList (ids : List String)
  | idOne (i : String)
deriving DecidableEq

structure Resp where
  status : Nat
  rdata : RData
deriving DecidableEq

/-- The completed field of a task request body: absent, a JSON boolean, or a
string; req.body.completed === true || req.body.completed === 'true'. -/
inductive JsCompleted where
  | absent
  | boolv (b : Bool)
  | strv (s : String)
deriving DecidableEq

def JsCompleted.toBool : JsCompleted → Bool
  | .strv s => s == "true"
  | .boolv b => b
  | .absent => false

/-- Body of POST/PUT /api/tasks. String fields use "" for the JS-falsy absent
value, exactly as the handlers coerce them (body.x || ''). -/
structure TaskBody where
  name : String := ""
  deadline : String := ""
  description : String := ""
  completed : JsCompleted := .absent
  assignedUser : String := ""
  assignedUserName : String := ""
deriving DecidableEq

/-- Body of POST/PUT /api/users. pendingTasks is none when the field is absent
or not an array (Array.isArray test in the update handler). -/
structure UserBody where
  name : String := ""
  email : String := ""
  pendingTasks : Option (List String) := none
deriving DecidableEq

/-- Model of Model.findById on the users collection (id assumed cast-safe at
call sites; handlers check isValidObjectId first or surface the CastError). -/
def findUserById (uid : String) (db : DB) : Option User :=
  db.users.find? (fun u => u.uid == uid)

def findTaskById (tid : String) (db : DB) : Option Task :=
  db.tasks.find? (fun t => t.tid == tid)

/-- Task.updateMany({_id: {$in: ids}}, {assignedUser: '', assignedUserName: 'unassigned'}). -/
def unassignTasks (ids : List String) (db : DB) : DB :=
  { db with tasks := db.tasks.map (fun t =>
      if ids.contains t.tid then
        { t with assignedUser := "", assignedUserName := "unassigned" }
      else t) }

/-- Task.updateMany({_id: {$in: ids}}, {assignedUser: newUid, assignedUserName: newName}). -/
def assignTasks (ids : List String) (newUid newName : String) (db : DB) : DB :=
  { db with tasks := db.tasks.map (fun t =>
      if ids.contains t.tid then
        { t with assignedUser := newUid, assignedUserName := newName }
      else t) }

/-- User.updateMany({_id: {$ne: uid}, pendingTasks: {$in: ids}}, {$pull: ...})
(users.js line 172). -/
def pullFromOtherUsers (uid : String) (ids : List String) (db : DB) : DB :=
  { db with users := db.users.map (fun u =>
      if u.uid == uid then u
      else { u with pendingTasks := u.pendingTasks.filter (fun t => !ids.contains t) }) }

/-- addTaskToUser from tasks.js lines 19-22: push unless already present. -/
def addTaskToUser (userId taskId : String) (db : DB) : DB :=
  if userId == "" then db
  else
    { db with users := db.users.map (fun u =>
        if u.uid == userId && !u.pendingTasks.contains taskId then
          { u with pendingTasks := u.pendingTasks ++ [taskId] }
        else u) }

/-- removeTaskFromUser from tasks.js lines 24-27. -/
def removeTaskFromUser (userId taskId : String) (db : DB) : DB :=
  if userId == "" then db
  else
    { db with users := db.users.map (fun u =>
        if u.uid == userId then
          { u with pendingTasks := u.pendingTasks.filter (fun t => t != taskId) }
        else u) }

/-- user.save() on a fetched document: replace the stored document. -/
def saveUser (u : User) (db : DB) : DB :=
  { db with users := db.users.map (fun w => if w.uid == u.uid then u else w) }

def saveTask (t : Task) (db : DB) : DB :=
  { db with tasks := db.tasks.map (fun w => if w.tid == t.tid then t else w) }

def saveNewTask (t : Task) (db : DB) : DB := { db with tasks := db.tasks ++ [t] }

def saveNewUser (u : User) (db : DB) : DB := { db with users := db.users ++ [u] }

/-- Tail of POST /api/tasks (tasks.js lines 100-108) once assignedUserName has
been resolved to aun: build the document, save it (a deadline whose parseInt is
NaN makes the save reject -> 500), then the pendingTasks side effect. -/
def taskCreateResolved (b : TaskBody) (newId : String) (db : DB) (aun : String) :
    Resp × DB :=
  match jsParseInt b.deadline with
  | none => (⟨500, .empty⟩, db)
  | some dl =>
    let t : Task :=
      { tid := newId, name := b.name, description := b.description, deadline := dl,
        completed := b.completed.toBool, assignedUser := b.assignedUser,
        assignedUserName := aun }
    let db1 := saveNewTask t db
    let db2 :=
      if b.assignedUser != "" && !t.completed then addTaskToUser b.assignedUser newId db1
      else db1
    (⟨201, .taskD t⟩, db2)

/-- POST /api/tasks (tasks.js lines 64-112). -/
def taskCreate (b : TaskBody) (newId : String) (db : DB) : Resp × DB :=
  if b.name == "" || b.deadline == "" then (⟨400, .empty⟩, db)
  else if b.assignedUser == "" then
    taskCreateResolved b newId db b.assignedUserName
  else if !isValidObjectId b.assignedUser then (⟨400, .empty⟩, db)
  else
    match findUserById b.assignedUser db with
    | none => (⟨404, .empty⟩, db)
    | some u =>
      if b.assignedUserName != "" && b.assignedUserName != u.name then
        (⟨400, .mismatch b.assignedUserName u.name⟩, db)
      else
        taskCreateResolved b newId db
          (if b.assignedUserName != "" then b.assignedUserName else u.name)

/-- GET /api/tasks/:id (tasks.js lines 115-132); the select projection only
shapes the returned document and is not modelled field-by-field. -/
def taskGetById (tid : String) (selectQ : Option String) (db : DB) : Resp :=
  if (parseJSONParam selectQ).isNull then ⟨400, .empty⟩
  else if !isValidObjectId tid then ⟨400, .empty⟩
  else
    match findTaskById tid db with
    | none => ⟨404, .empty⟩
    | some t => ⟨200, .taskD t⟩

/-- GET /api/users/:id (users.js lines 98-111). There is no id-format check:
findById on a malformed id rejects with a CastError, which the catch maps to
500. -/
def userGetById (uid : String) (selectQ filterQ : Option String) (db : DB) : Resp :=
  if (jsOrP (parseJSONParam selectQ) (parseJSONParam filterQ)).isNull then ⟨400, .empty⟩
  else if !isValidObjectId uid then ⟨500, .empty⟩
  else
    match findUserById uid db with
    | none => ⟨404, .empty⟩
    | some u => ⟨200, .userD u⟩

/-- Tail of PUT /api/tasks/:id (tasks.js lines 176-201): resolved is the
resolvedAssignedUserName variable (some when body.assignedUser was non-empty). -/
def taskUpdateResolved (tid : String) (b : TaskBody) (db : DB) (task : Task)
    (resolved : Option String) : Resp × DB :=
  match jsParseInt b.deadline with
  | none => (⟨500, .empty⟩, db)
  | some dl =>
    let oldAssigned := task.assignedUser
    let newCompleted := b.completed.toBool
    let newAssigned := b.assignedUser
    let newAun :=
      match resolved with
      | some n => n
      | none =>
        if b.assignedUserName != "" then b.assignedUserName
        else if newAssigned != "" then task.assignedUserName
        else "unassigned"
    let t : Task :=
      { task with
          name := b.name,
          description := b.description,
          deadline := dl,
          completed := newCompleted,
          assignedUser := newAssigned,
          assignedUserName := newAun }
    let db1 := saveTask t db
    if oldAssigned != "" && oldAssigned != newAssigned && !isValidObjectId oldAssigned then
      (⟨500, .empty⟩, db1)
    else
      let db2 :=
        if oldAssigned != "" && oldAssigned != newAssigned then
          removeTaskFromUser oldAssigned tid db1
        else db1
      let db3 :=
        if newAssigned != "" && !newCompleted then addTaskToUser newAssigned tid db2
        else db2
      let db4 :=
        if newCompleted && !task.completed && newAssigned != "" then
          removeTaskFromUser newAssigned tid db3
        else db3
      (⟨200, .taskD t⟩, db4)

/-- PUT /api/tasks/:id (tasks.js lines 135-205). -/
def taskUpdate (tid : String) (b : TaskBody) (db : DB) : Resp × DB :=
  if !isValidObjectId tid then (⟨400, .empty⟩, db)
  else if b.name == "" || b.deadline == "" then (⟨400, .empty⟩, db)
  else
    match findTaskById tid db with
    | none => (⟨404, .empty⟩, db)
    | some task =>
      if task.completed then (⟨400, .empty⟩, db)
      else if b.assignedUser == "" then taskUpdateResolved tid b db task none
      else if !isValidObjectId b.assignedUser then (⟨400, .empty⟩, db)
      else
        match findUserById b.assignedUser db with
        | none => (⟨404, .empty⟩, db)
        | some u =>
          if b.assignedUserName != "" && b.assignedUserName != u.name then
            (⟨400, .mismatch b.assignedUserName u.name⟩, db)
          else
            taskUpdateResolved tid b db task
              (some (if b.assignedUserName != "" then b.assignedUserName else u.name))

/-- DELETE /api/tasks/:id (tasks.js lines 208-227). -/
def taskDelete (tid : String) (db : DB) : Resp × DB :=
  if !isValidObjectId tid then (⟨400, .empty⟩, db)
  else
    match findTaskById tid db with
    | none => (⟨404, .empty⟩, db)
    | some task =>
      if task.assignedUser != "" && !isValidObjectId task.assignedUser then
        (⟨500, .empty⟩, db)
      else
        let db1 :=
          if task.assignedUser != "" then removeTaskFromUser task.assignedUser tid db
          else db
        (⟨204, .empty⟩, { db1 with tasks := db1.tasks.filter (fun t => t.tid != tid) })

/-- POST /api/users (users.js lines 55-96). A pendingTasks entry with a
malformed id makes the Task.find $in cast reject, caught as 400. -/
def userCreate (b : UserBody) (newId : String) (db : DB) : Resp × DB :=
  let pend := b.pendingTasks.getD []
  if b.name == "" || b.email == "" then (⟨400, .empty⟩, db)
  else if db.users.any (fun u => u.email == b.email) then (⟨400, .empty⟩, db)
  else if !pend.isEmpty && pend.any (fun t => !isValidObjectId t) then
    (⟨400, .empty⟩, db)
  else
    let found := db.tasks.filter (fun t => pend.contains t.tid)
    let completedIds := (found.filter (fun t => t.completed)).map (fun t => t.tid)
    if !pend.isEmpty && !completedIds.isEmpty then (⟨400, .idList completedIds⟩, db)
    else
      let u : User := { uid := newId, name := b.name, email := b.email, pendingTasks := pend }
      let db1 := saveNewUser u db
      let db2 := if !pend.isEmpty then assignTasks pend newId b.name db1 else db1
      (⟨201, .userD u⟩, db2)

/-- PUT /api/users/:id (users.js lines 114-191). Note that the toRemove
unassignment is applied before the toAdd validations, so a 400/404 from the
toAdd block leaves the toRemove updates in place, exactly as in the source. -/
def userUpdate (uid : String) (b : UserBody) (db : DB) : Resp × DB :=
  if b.name == "" || b.email == "" then (⟨400, .empty⟩, db)
  else if !isValidObjectId uid then (⟨400, .empty⟩, db)
  else if db.users.any (fun u => u.email == b.email && u.uid != uid) then
    (⟨400, .empty⟩, db)
  else
    match findUserById uid db with
    | none => (⟨404, .empty⟩, db)
    | some user =>
      let newPending := b.pendingTasks.getD []
      let toRemove := user.pendingTasks.filter (fun t => !newPending.contains t)
      if !toRemove.isEmpty && toRemove.any (fun t => !isValidObjectId t) then
        (⟨500, .empty⟩, db)
      else
        let db1 := if !toRemove.isEmpty then unassignTasks toRemove db else db
        let toAdd := newPending.filter (fun t => !user.pendingTasks.contains t)
        if toAdd.isEmpty then
          let u2 : User := { user with name := b.name, email := b.email, pendingTasks := newPending }
          (⟨200, .userD u2⟩, saveUser u2 db1)
        else
          match toAdd.find? (fun t => !isValidObjectId t) with
          | some bad => (⟨400, .idOne bad⟩, db1)
          | none =>
            let found := db1.tasks.filter (fun t => toAdd.contains t.tid)
            if found.length != toAdd.length then
              let foundIds := found.map (fun t => t.tid)
              (⟨404, .idList (toAdd.filter (fun x => !foundIds.contains x))⟩, db1)
            else
              let completedIds := (found.filter (fun t => t.completed)).map (fun t => t.tid)
              if !completedIds.isEmpty then (⟨400, .idList completedIds⟩, db1)
              else
                let db2 := pullFromOtherUsers uid toAdd db1
                let db3 := assignTasks toAdd uid b.name db2
                let u2 : User := { user with name := b.name, email := b.email, pendingTasks := newPending }
                (⟨200, .userD u2⟩, saveUser u2 db3)

/-- DELETE /api/users/:id (users.js lines 194-210); no id-format check, so a
malformed id surfaces as a CastError -> 500. -/
def userDelete (uid : String) (db : DB) : Resp × DB :=
  if !isValidObjectId uid then (⟨500, .empty⟩, db)
  else
    match findUserById uid db with
    | none => (⟨404, .empty⟩, db)
    | some user =>
      if !user.pendingTasks.isEmpty && user.pendingTasks.any (fun t => !isValidObjectId t) then
        (⟨500, .empty⟩, db)
      else
        let db1 := if !user.pendingTasks.isEmpty then unassignTasks user.pendingTasks db else db
        (⟨204, .empty⟩, { db1 with users := db1.users.filter (fun u => u.uid != uid) })

/-- The query descriptor a list handler passes to storage: Task.find(where||{})
with optional select/sort/skip/limit clauses and the count flag. -/
structure QDesc where
  filterD : Json
  selectD : Option Json
  sortD : Option Json
  skipD : Option Int
  limitD : Option Int
  wantCount : Bool

/-- Raw query-string parameters of a list request. -/
structure ListQ where
  whereQ : Option String := none
  sortQ : Option String := none
  selectQ : Option String := none
  filterQ : Option String := none
  skipQ : Option String := none
  limitQ : Option String := none
  countQ : Option String := none

structure ListOut where
  status : Nat
  descD : Option QDesc

/-- JS truthiness of a raw query parameter (req.query.x ? ... : ...). -/
def qPresent : Option String → Bool
  | none => false
  | some s => s != ""

/-- if (select) q = q.select(select): the clause applied only to truthy values. -/
def truthyVal (p : JParam) : Option Json :=
  match p with
  | .val j => if j.truthy then some j else none
  | _ => none

/-- Task.find(where || {}). -/
def filterOf (p : JParam) : Json :=
  match truthyVal p with
  | some j => j
  | none => .obj []

/-- GET /api/tasks (tasks.js lines 30-61), up to the storage round-trip: the
handler either rejects malformed JSON parameters with 400 or builds the query
descriptor it executes. -/
def tasksList (q : ListQ) : ListOut :=
  let w := parseJSONParam q.whereQ
  let so := parseJSONParam q.sortQ
  let se := parseJSONParam q.selectQ
  let skipD : Option Int := if qPresent q.skipQ then jsParseInt (q.skipQ.getD "") else none
  let limitD : Option Int := if qPresent q.limitQ then jsParseInt (q.limitQ.getD "") else some 100
  let cnt := q.countQ == some "true"
  if w.isNull || so.isNull || se.isNull then ⟨400, none⟩
  else ⟨200, some ⟨filterOf w, truthyVal se, truthyVal so, skipD, limitD, cnt⟩⟩

/-- GET /api/users (users.js lines 20-52): select falls back to the legacy
filter alias through JS ||, and the default limit is absent (unlimited). -/
def usersList (q : ListQ) : ListOut :=
  let w := parseJSONParam q.whereQ
  let so := parseJSONParam q.sortQ
  let se := jsOrP (parseJSONParam q.selectQ) (parseJSONParam q.filterQ)
  let skipD : Option Int := if qPresent q.skipQ then jsParseInt (q.skipQ.getD "") else none
  let limitD : Option Int := if qPresent q.limitQ then jsParseInt (q.limitQ.getD "") else none
  let cnt := q.countQ == some "true"
  if w.isNull || so.isNull || se.isNull then ⟨400, none⟩
  else ⟨200, some ⟨filterOf w, truthyVal se, truthyVal so, skipD, limitD, cnt⟩⟩

/-- find? skips a left part none of whose elements satisfies the predicate. -/
theorem find?_append_right {α : Type} (l1 l2 : List α) (p : α → Bool)
    (h : ∀ x ∈ l1, p x = false) : (l1 ++ l2).find? p = l2.find? p := by
  induction l1 with
  | nil => rfl
  | cons a t ih =>
    have ha := h a (List.mem_cons_self a t)
    simp only [List.cons_append, List.find?_cons, ha]
    exact ih (fun x hx => h x (List.mem_cons_of_mem a hx))

/-! Concrete fixtures used by witnesses and counterexamples. -/

def uidA : String := "aaaaaaaaaaaaaaaaaaaaaaaa"

def uidB : String := "bbbbbbbbbbbbbbbbbbbbbbbb"

def tidC : String := "cccccccccccccccccccccccc"

def userAl : User := { uid := uidA, name := "Al", email := "a@x.com", pendingTasks := [] }

def taskDone : Task :=
  { tid := tidC, name := "T1", description := "", deadline := 1, completed := true,
    assignedUser := "", assignedUserName := "unassigned" }

def taskPendingAl : Task :=
  { tid := tidC, name := "T1", description := "", deadline := 1, completed := false,
    assignedUser := uidA, assignedUserName := "Al" }

/-- C1 (counterexample): the claim says every Task visible after any operation
has assignedUserName equal to the assigned User's name, and "unassigned"
whenever assignedUser is empty. Creating a task with no assignedUser and no
assignedUserName succeeds (201) and stores assignedUserName as the empty
string, not "unassigned". -/
theorem c1_empty_assignedUserName_counterexample :
    (taskCreate { name := "T1", deadline := "1" } tidC {}).1.status = 201 ∧
    (∃ t ∈ ((taskCreate { name := "T1", deadline := "1" } tidC {}).2).tasks,
      t.assignedUser = "" ∧ t.assignedUserName ≠ "unassigned") := by
  decide

/-- C5 (counterexample): GET /api/users/:id does not behave as GET /api/tasks/:id
on a malformed id: the user route has no format check and the findById cast
failure surfaces as 500, not 400, while the task route answers 400. -/
theorem c5_malformed_user_id_counterexample :
    (userGetById "zz" none none {}).status = 500 ∧
    (taskGetById "zz" none {}).status = 400 ∧
    (500 : Nat) ≠ 400 := by
  decide

/-- C6 (counterexample): a GET /api/users request whose select parameter is not
valid JSON (and with no filter alias) is answered 200, silently ignoring the
malformed parameter instead of producing 400. -/
theorem c6_malformed_select_ignored_counterexample :
    (jsonParse "\x7bbad").isNone = true ∧
    (usersList { selectQ := some "\x7bbad" }).status = 200 := by
  decide

/-- C8 (counterexample): skip and limit are not restricted to non-negative
integers and invalid values are not treated as absent: skip=-5 is applied as
the negative integer -5, and limit=abc drops the limit clause entirely while
an absent limit defaults to 100 on the tasks listing. -/
theorem c8_skip_limit_counterexample :
    ((tasksList { skipQ := some "-5" }).descD.map QDesc.skipD = some (some (-5))) ∧
    ¬ (0:Int) ≤ -5 ∧
    ((tasksList { limitQ := some "abc" }).descD.map QDesc.limitD = some none) ∧
    ((tasksList {}).descD.map QDesc.limitD = some (some 100)) ∧
    (some (none : Option Int) ≠ some (some (100:Int))) := by
  decide

/-- C2: a PUT /api/tasks/:id targeting a stored Task whose completed field is
true returns status 400 and leaves the database unchanged, for every request
payload. -/
theorem c2_completed_put_always_400 (db : DB) (tid : String) (b : TaskBody) (t : Task)
    (hfind : findTaskById tid db = some t) (hc : t.completed = true) :
    (taskUpdate tid b db).1.status = 400 ∧ (taskUpdate tid b db).2 = db := by
  unfold taskUpdate
  split
  · exact ⟨rfl, rfl⟩
  · split
    · exact ⟨rfl, rfl⟩
    · rw [hfind]
      simp [hc]

/-- C2 witness: the theorem applied to a concrete completed task and payload. -/
theorem c2_completed_put_always_400_witness :
    (taskUpdate tidC { name := "X", deadline := "9" } { tasks := [taskDone] }).1.status = 400 ∧
    (taskUpdate tidC { name := "X", deadline := "9" } { tasks := [taskDone] }).2 =
      { tasks := [taskDone] } :=
  c2_completed_put_always_400 { tasks := [taskDone] } tidC
    { name := "X", deadline := "9" } taskDone (by decide) (by decide)

/-- C4: for POST /api/tasks with name and deadline supplied and a non-empty
assignedUser: a malformed id gives 400; a well-formed id with no such User
gives 404; a User with a conflicting caller-supplied assignedUserName gives
400 carrying both names; otherwise assignedUserName is derived from the
resolved User. -/
theorem c4_task_create_assigned_user_validation (db : DB) (b : TaskBody) (newId : String)
    (hn : b.name ≠ "") (hd : b.deadline ≠ "") (ha : b.assignedUser ≠ "") :
    (isValidObjectId b.assignedUser = false →
      (taskCreate b newId db).1 = ⟨400, .empty⟩) ∧
    (isValidObjectId b.assignedUser = true → findUserById b.assignedUser db = none →
      (taskCreate b newId db).1 = ⟨404, .empty⟩) ∧
    (∀ u, isValidObjectId b.assignedUser = true →
      findUserById b.assignedUser db = some u →
      b.assignedUserName ≠ "" → b.assignedUserName ≠ u.name →
      (taskCreate b newId db).1 = ⟨400, .mismatch b.assignedUserName u.name⟩) ∧
    (∀ u dl, isValidObjectId b.assignedUser = true →
      findUserById b.assignedUser db = some u →
      (b.assignedUserName = "" ∨ b.assignedUserName = u.name) →
      jsParseInt b.deadline = some dl →
      (taskCreate b newId db).1.status = 201 ∧
      ∃ t, (taskCreate b newId db).1.rdata = .taskD t ∧ t.assignedUserName = u.name) := by
  have h1 : (b.name == "" || b.deadline == "") = false := by
    simp [hn, hd]
  have h2 : (b.assignedUser == "") = false := by
    simp [ha]
  refine ⟨fun hv => ?_, fun hv hf => ?_, fun u hv hf hs hne => ?_, fun u dl hv hf hok hdl => ?_⟩
  · simp [taskCreate, h1, h2, hv]
  · simp [taskCreate, h1, h2, hv, hf]
  · have h3 : (b.assignedUserName != "" && b.assignedUserName != u.name) = true := by
      simp [hs, hne]
    simp [taskCreate, h1, h2, hv, hf, h3]
  · have h3 : (b.assignedUserName != "" && b.assignedUserName != u.name) = false := by
      rcases hok with h | h <;> simp [h]
    have h4 : (if b.assignedUserName != "" then b.assignedUserName else u.name) = u.name := by
      rcases hok with h | h <;> simp [h]
    simp only [taskCreate, h1, h2, hv, hf, h3, h4, taskCreateResolved, hdl, Bool.false_eq_true,
      if_false, bne_self_eq_false, Bool.not_true]
    simp [hdl]

/-- C4 witness: a well-formed assignedUser naming no stored User is answered
404 by task creation. -/
theorem c4_task_create_assigned_user_validation_witness :
    (taskCreate { name := "T1", deadline := "1", assignedUser := uidB } tidC
        { users := [userAl] }).1 = ⟨404, .empty⟩ :=
  (c4_task_create_assigned_user_validation { users := [userAl] }
      { name := "T1", deadline := "1", assignedUser := uidB } tidC
      (by decide) (by decide) (by decide)).2.1 (by decide) (by decide)

/-- C5 (amended): GET /api/tasks/:id answers 400 on a malformed id and 404 on a
well-formed id with no stored Task; GET /api/users/:id answers 404 on a
well-formed id with no stored User, but a malformed id is not pre-checked and
surfaces as a 500 server error, not a 400. -/
theorem c5_get_by_id_statuses (id : String) (db : DB) :
    (isValidObjectId id = false →
      (taskGetById id none db).status = 400 ∧ (userGetById id none none db).status = 500) ∧
    (isValidObjectId id = true → findTaskById id db = none →
      (taskGetById id none db).status = 404) ∧
    (isValidObjectId id = true → findUserById id db = none →
      (userGetById id none none db).status = 404) := by
  refine ⟨fun hv => ⟨?_, ?_⟩, fun hv hf => ?_, fun hv hf => ?_⟩
  · simp [taskGetById, parseJSONParam, JParam.isNull, hv]
  · simp [userGetById, parseJSONParam, jsOrP, JParam.truthy, JParam.isNull, hv]
  · simp [taskGetById, parseJSONParam, JParam.isNull, hv, hf]
  · simp [userGetById, parseJSONParam, jsOrP, JParam.truthy, JParam.isNull, hv, hf]

/-- C5 witness: the tasks route rejects a malformed id with 400 while the users
route surfaces it as 500. -/
theorem c5_get_by_id_statuses_witness :
    (taskGetById "zz" none {}).status = 400 ∧ (userGetById "zz" none none {}).status = 500 :=
  (c5_get_by_id_statuses "zz" {}).1 (by decide)

/-- C6 (amended): a present, non-empty where/sort/select value whose JSON.parse
fails (or parses to the JSON null, which the code cannot distinguish from a
parse failure) is exactly what makes a list request answer 400. For tasks every
such malformed parameter forces the 400; for users a malformed select alone
does not: the JS fallback select-or-filter drops the null parse result of
select whenever it is falsy, so a malformed select is silently ignored unless
the filter alias is itself present and malformed. An absent or empty-string
parameter never triggers the 400. -/
theorem c6_malformed_param_yields_400 (q : ListQ) (p : Option String) :
    ((parseJSONParam p).isNull = true ↔
      ∃ s, p = some s ∧ s ≠ "" ∧ (jsonParse s = none ∨ jsonParse s = some Json.null)) ∧
    ((tasksList q).status = 400 ↔
      (parseJSONParam q.whereQ).isNull = true ∨ (parseJSONParam q.sortQ).isNull = true ∨
      (parseJSONParam q.selectQ).isNull = true) ∧
    ((usersList q).status = 400 ↔
      (parseJSONParam q.whereQ).isNull = true ∨ (parseJSONParam q.sortQ).isNull = true ∨
      (jsOrP (parseJSONParam q.selectQ) (parseJSONParam q.filterQ)).isNull = true) := by
  refine ⟨?_, ?_, ?_⟩
  · cases p with
    | none => simp [parseJSONParam, JParam.isNull]
    | some s =>
      by_cases he : s = ""
      · simp [parseJSONParam, he, JParam.isNull]
      · have he2 : (s == "") = false := by simp [he]
        cases hj : jsonParse s with
        | none => simp [parseJSONParam, he2, hj, JParam.isNull, he]
        | some j =>
          cases j <;> simp [parseJSONParam, he2, hj, JParam.isNull, he]
  · cases h1 : (parseJSONParam q.whereQ).isNull <;>
      cases h2 : (parseJSONParam q.sortQ).isNull <;>
        cases h3 : (parseJSONParam q.selectQ).isNull <;>
          simp [tasksList, h1, h2, h3]
  · cases h1 : (parseJSONParam q.whereQ).isNull <;>
      cases h2 : (parseJSONParam q.sortQ).isNull <;>
        cases h3 : (jsOrP (parseJSONParam q.selectQ) (parseJSONParam q.filterQ)).isNull <;>
          simp [usersList, h1, h2, h3]

/-- C8 (amended): skip and limit are read with JS parseInt semantics and never
cause an error status: the list status does not depend on them; a skip value
whose parseInt is NaN behaves exactly as an absent skip; a value with an
integer prefix (including a negative one) is applied as that integer; a tasks
limit whose parseInt is NaN drops the limit clause, which differs from an
absent limit (default 100), while on the users listing a NaN limit behaves
exactly as an absent one. -/
theorem c8_skip_limit_parseInt (q : ListQ) (s : String) (n : Int) :
    ((tasksList q).status = (tasksList { q with skipQ := none, limitQ := none }).status) ∧
    (q.skipQ = some s → jsParseInt s = none →
      tasksList q = tasksList { q with skipQ := none }) ∧
    (q.skipQ = some s → jsParseInt s = some n →
      ∀ d, (tasksList q).descD = some d → d.skipD = some n) ∧
    (q.limitQ = some s → s ≠ "" → jsParseInt s = none →
      ∀ d, (tasksList q).descD = some d → d.limitD = none) ∧
    (q.limitQ = none → ∀ d, (tasksList q).descD = some d → d.limitD = some 100) ∧
    (q.limitQ = some s → jsParseInt s = none →
      usersList q = usersList { q with limitQ := none }) := by
  have hemp : jsParseInt "" = none := by decide
  refine ⟨?_, fun hs hn2 => ?_, fun hs hn2 d hd => ?_, fun hl hne hn2 d hd => ?_,
    fun hl d hd => ?_, fun hl hn2 => ?_⟩
  · cases h1 : (parseJSONParam q.whereQ).isNull <;>
      cases h2 : (parseJSONParam q.sortQ).isNull <;>
        cases h3 : (parseJSONParam q.selectQ).isNull <;>
          simp [tasksList, h1, h2, h3]
  · by_cases he : s = "" <;>
      cases h1 : (parseJSONParam q.whereQ).isNull <;>
        cases h2 : (parseJSONParam q.sortQ).isNull <;>
          cases h3 : (parseJSONParam q.selectQ).isNull <;>
            simp [tasksList, hs, qPresent, he, hn2, h1, h2, h3]
  · by_cases he : s = ""
    · rw [he] at hn2
      rw [hemp] at hn2
      cases hn2
    · cases h1 : (parseJSONParam q.whereQ).isNull <;>
        cases h2 : (parseJSONParam q.sortQ).isNull <;>
          cases h3 : (parseJSONParam q.selectQ).isNull <;>
            simp [tasksList, hs, qPresent, he, h1, h2, h3] at hd <;>
              (subst hd; simp [he, hn2])
  · cases h1 : (parseJSONParam q.whereQ).isNull <;>
      cases h2 : (parseJSONParam q.sortQ).isNull <;>
        cases h3 : (parseJSONParam q.selectQ).isNull <;>
          simp [tasksList, hl, qPresent, hne, h1, h2, h3] at hd <;>
            (subst hd; simp [hne, hn2])
  · cases h1 : (parseJSONParam q.whereQ).isNull <;>
      cases h2 : (parseJSONParam q.sortQ).isNull <;>
        cases h3 : (parseJSONParam q.selectQ).isNull <;>
          simp [tasksList, hl, qPresent, h1, h2, h3] at hd <;>
            (subst hd; simp [qPresent])
  · by_cases he : s = "" <;>
      cases h1 : (parseJSONParam q.whereQ).isNull <;>
        cases h2 : (parseJSONParam q.sortQ).isNull <;>
          cases h3 : (jsOrP (parseJSONParam q.selectQ) (parseJSONParam q.filterQ)).isNull <;>
            simp [usersList, hl, qPresent, he, hn2, h1, h2, h3]

/-- C8 witness: the skip value abc parses to NaN and the tasks listing treats
it exactly as an absent skip parameter. -/
theorem c8_skip_limit_parseInt_witness :
    tasksList { skipQ := some "abc" } = tasksList {} :=
  (c8_skip_limit_parseInt { skipQ := some "abc" } "abc" 0).2.1 rfl (by decide)

/-- C1 (amended): the denormalized name is only synchronized at task write
time. After a successful POST /api/tasks, the task in the response has
assignedUserName equal to the referenced User's current name when assignedUser
is non-empty, and equal to the caller-supplied assignedUserName (default the
empty string, not "unassigned") when assignedUser is empty. After a successful
PUT /api/tasks/:id, it equals the referenced User's current name when
assignedUser is non-empty, and the caller-supplied value (default
"unassigned") when assignedUser is empty. User operations do not re-derive
assignedUserName for tasks that stay in a user's pendingTasks, so the claimed
global invariant does not hold. -/
theorem c1_assignedUserName_at_write_time (db : DB) (b : TaskBody) (newId tid : String) :
    ((taskCreate b newId db).1.status = 201 →
      ∃ t, (taskCreate b newId db).1.rdata = .taskD t ∧
        (if b.assignedUser ≠ "" then
           ∃ u, findUserById b.assignedUser db = some u ∧ t.assignedUserName = u.name
         else t.assignedUserName = b.assignedUserName)) ∧
    ((taskUpdate tid b db).1.status = 200 →
      ∃ t, (taskUpdate tid b db).1.rdata = .taskD t ∧
        (if b.assignedUser ≠ "" then
           ∃ u, findUserById b.assignedUser db = some u ∧ t.assignedUserName = u.name
         else t.assignedUserName =
           (if b.assignedUserName ≠ "" then b.assignedUserName else "unassigned"))) := by
  constructor
  · intro h201
    cases hnd : (b.name == "" || b.deadline == "") with
    | true => simp [taskCreate, hnd] at h201
    | false =>
      cases hau : (b.assignedUser == "") with
      | true =>
        have hau2 : b.assignedUser = "" := by simpa using hau
        cases hdl : jsParseInt b.deadline with
        | none => simp [taskCreate, hnd, hau, taskCreateResolved, hdl] at h201
        | some dl =>
          simp only [taskCreate, hnd, hau, taskCreateResolved, hdl, Bool.false_eq_true,
            if_false, if_true, Bool.true_eq_false]
          refine ⟨_, rfl, ?_⟩
          rw [if_neg (by simp [hau2])]
      | false =>
        cases hv : isValidObjectId b.assignedUser with
        | false => simp [taskCreate, hnd, hau, hv] at h201
        | true =>
          cases hf : findUserById b.assignedUser db with
          | none => simp [taskCreate, hnd, hau, hv, hf] at h201
          | some u =>
            cases hmm : (b.assignedUserName != "" && b.assignedUserName != u.name) with
            | true => simp [taskCreate, hnd, hau, hv, hf, hmm] at h201
            | false =>
              cases hdl : jsParseInt b.deadline with
              | none => simp [taskCreate, hnd, hau, hv, hf, hmm, taskCreateResolved, hdl] at h201
              | some dl =>
                have haun : (if b.assignedUserName != "" then b.assignedUserName else u.name) = u.name := by
                  cases hx : (b.assignedUserName != "") with
                  | false => simp
                  | true => simp only [if_true, hx]
                              <;> simp_all
                simp only [taskCreate, hnd, hau, hv, hf, hmm, taskCreateResolved, hdl,
                  Bool.false_eq_true, if_false, if_true, Bool.true_eq_false]
                refine ⟨_, rfl, ?_⟩
                rw [if_pos (by simpa using hau)]
                exact ⟨u, rfl, by simpa using haun⟩
  · intro h200
    cases hvt : isValidObjectId tid with
    | false => simp [taskUpdate, hvt] at h200
    | true =>
      cases hnd : (b.name == "" || b.deadline == "") with
      | true => simp [taskUpdate, hvt, hnd] at h200
      | false =>
        cases hft : findTaskById tid db with
        | none => simp [taskUpdate, hvt, hnd, hft] at h200
        | some task =>
          cases hcomp : task.completed with
          | true => simp [taskUpdate, hvt, hnd, hft, hcomp] at h200
          | false =>
            cases hau : (b.assignedUser == "") with
            | true =>
              have hau2 : b.assignedUser = "" := by simpa using hau
              cases hdl : jsParseInt b.deadline with
              | none => simp [taskUpdate, hvt, hnd, hft, hcomp, hau, taskUpdateResolved, hdl] at h200
              | some dl =>
                cases hold : (task.assignedUser != "" && task.assignedUser != b.assignedUser
                    && !isValidObjectId task.assignedUser) with
                | true =>
                  simp [taskUpdate, hvt, hnd, hft, hcomp, hau, taskUpdateResolved, hdl,
                    hold] at h200
                | false =>
                  simp only [taskUpdate, hvt, hnd, hft, hcomp, hau, taskUpdateResolved, hdl,
                    hold, Bool.false_eq_true, if_false, if_true, Bool.true_eq_false]
                  refine ⟨_, rfl, ?_⟩
                  rw [if_neg (by simp [hau2])]
                  cases haun : (b.assignedUserName == "") with
                  | true =>
                    have hx : b.assignedUserName = "" := by simpa using haun
                    simp [hx, hau2]
                  | false =>
                    have hx : ¬ b.assignedUserName = "" := by simpa using haun
                    simp [hx]
            | false =>
              cases hv : isValidObjectId b.assignedUser with
              | false => simp [taskUpdate, hvt, hnd, hft, hcomp, hau, hv] at h200
              | true =>
                cases hf : findUserById b.assignedUser db with
                | none => simp [taskUpdate, hvt, hnd, hft, hcomp, hau, hv, hf] at h200
                | some u =>
                  cases hmm : (b.assignedUserName != "" && b.assignedUserName != u.name) with
                  | true => simp [taskUpdate, hvt, hnd, hft, hcomp, hau, hv, hf, hmm] at h200
                  | false =>
                    cases hdl : jsParseInt b.deadline with
                    | none =>
                      simp [taskUpdate, hvt, hnd, hft, hcomp, hau, hv, hf, hmm,
                        taskUpdateResolved, hdl] at h200
                    | some dl =>
                      have haun : (if b.assignedUserName != "" then b.assignedUserName
                          else u.name) = u.name := by
                        cases hx : (b.assignedUserName != "") with
                        | false => simp
                        | true => simp only [if_true, hx]
                                    <;> simp_all
                      cases hold : (task.assignedUser != "" && task.assignedUser != b.assignedUser
                          && !isValidObjectId task.assignedUser) with
                      | true =>
                        simp [taskUpdate, hvt, hnd, hft, hcomp, hau, hv, hf, hmm,
                          taskUpdateResolved, hdl, hold] at h200
                      | false =>
                        simp only [taskUpdate, hvt, hnd, hft, hcomp, hau, hv, hf, hmm,
                          taskUpdateResolved, hdl, hold, Bool.false_eq_true, if_false, if_true,
                          Bool.true_eq_false]
                        refine ⟨_, rfl, ?_⟩
                        rw [if_pos (by simpa using hau)]
                        exact ⟨u, rfl, by simpa using haun⟩

/-- C1 witness: creating a task assigned to the stored user Al yields a
response task whose assignedUserName is Al's current name. -/
theorem c1_assignedUserName_at_write_time_witness :
    ∃ t, (taskCreate { name := "T1", deadline := "1", assignedUser := uidA } tidC
        { users := [userAl] }).1.rdata = .taskD t ∧
      (if ({ name := "T1", deadline := "1", assignedUser := uidA } : TaskBody).assignedUser ≠ "" then
         ∃ u, findUserById uidA { users := [userAl] } = some u ∧ t.assignedUserName = u.name
       else t.assignedUserName = "") :=
  (c1_assignedUserName_at_write_time { users := [userAl] }
      { name := "T1", deadline := "1", assignedUser := uidA } tidC tidC).1 (by decide)

/-- C10: POST /api/users does not check that the pendingTasks ids exist: with
name and email valid, a fresh email, well-formed task ids none of which names a
stored completed task, and at least one id naming no stored task at all, the
creation still answers 201 and the new User is stored with exactly the given
pendingTasks list, missing ids included. -/
theorem c10_user_create_skips_missing_tasks (db : DB) (b : UserBody)
    (newId missingId : String) (l : List String)
    (hp : b.pendingTasks = some l)
    (hn : b.name ≠ "") (he : b.email ≠ "")
    (hemail : ∀ u ∈ db.users, u.email ≠ b.email)
    (hids : ∀ t ∈ l, isValidObjectId t = true)
    (hnc : ∀ t ∈ db.tasks, t.tid ∈ l → t.completed = false)
    (hmiss : missingId ∈ l)
    (hmiss2 : ∀ t ∈ db.tasks, t.tid ≠ missingId) :
    (userCreate b newId db).1.status = 201 ∧
    ∃ u, (userCreate b newId db).1.rdata = .userD u ∧ u.pendingTasks = l ∧
      u ∈ ((userCreate b newId db).2).users := by
  have h1 : (b.name == "" || b.email == "") = false := by simp [hn, he]
  have h2 : db.users.any (fun u => u.email == b.email) = false := by
    rw [List.any_eq_false]
    intro u hu
    simpa using hemail u hu
  have h3 : l.any (fun t => !isValidObjectId t) = false := by
    rw [List.any_eq_false]
    intro t ht
    simp [hids t ht]
  have h4 : (db.tasks.filter (fun t => l.contains t.tid)).filter (fun t => t.completed) = [] := by
    rw [List.filter_eq_nil_iff]
    intro t ht
    have ht2 := List.mem_filter.mp ht
    have hc := hnc t ht2.1 (by simpa using ht2.2)
    simp [hc]
  simp only [userCreate, hp, Option.getD_some, h1, h2, h3, h4, Bool.false_eq_true, if_false,
    Bool.and_false, List.map_nil, List.isEmpty_nil, Bool.not_true, Bool.false_and]
  refine ⟨by trivial, ⟨{ uid := newId, name := b.name, email := b.email, pendingTasks := l },
    by trivial, by trivial, ?_⟩⟩
  cases hle : l.isEmpty <;>
    simp [hle, assignTasks, saveNewUser]

/-- C10 witness: creating Al with a single well-formed but nonexistent task id
succeeds and persists that id. -/
theorem c10_user_create_skips_missing_tasks_witness :
    (userCreate { name := "Al", email := "a@x.com", pendingTasks := some [tidC] } uidA {}).1.status = 201 ∧
    ∃ u, (userCreate { name := "Al", email := "a@x.com", pendingTasks := some [tidC] } uidA {}).1.rdata = .userD u ∧
      u.pendingTasks = [tidC] ∧
      u ∈ ((userCreate { name := "Al", email := "a@x.com", pendingTasks := some [tidC] } uidA {}).2).users :=
  c10_user_create_skips_missing_tasks {} { name := "Al", email := "a@x.com", pendingTasks := some [tidC] }
    uidA tidC [tidC] (by decide) (by decide) (by decide) (by decide) (by decide) (by decide)
    (by decide) (by decide)

/-- C9: a PUT /api/users/:id whose body omits pendingTasks (or supplies a
non-array) treats the new pending list as empty: it succeeds, every stored Task
whose id was in the user's pendingTasks is unassigned (assignedUser empty,
assignedUserName "unassigned"), and the stored user's pendingTasks becomes
empty. -/
theorem c9_put_user_missing_pendingTasks_clears (db : DB) (uid : String) (b : UserBody)
    (user : User)
    (hp : b.pendingTasks = none)
    (hn : b.name ≠ "") (he : b.email ≠ "")
    (hv : isValidObjectId uid = true)
    (hemail : ∀ u ∈ db.users, u.email = b.email → u.uid = uid)
    (hfind : findUserById uid db = some user)
    (hids : ∀ t ∈ user.pendingTasks, isValidObjectId t = true) :
    (userUpdate uid b db).1.status = 200 ∧
    (∀ t ∈ ((userUpdate uid b db).2).tasks, t.tid ∈ user.pendingTasks →
      t.assignedUser = "" ∧ t.assignedUserName = "unassigned") ∧
    (∀ u2 ∈ ((userUpdate uid b db).2).users, u2.uid = uid → u2.pendingTasks = []) := by
  have h1 : (b.name == "" || b.email == "") = false := by simp [hn, he]
  have h2 : db.users.any (fun u => u.email == b.email && u.uid != uid) = false := by
    rw [List.any_eq_false]
    intro u hu
    by_cases hx : u.email = b.email
    · simp [hemail u hu hx]
    · simp [hx]
  have hrem : user.pendingTasks.filter (fun t => !(([] : List String).contains t)) =
      user.pendingTasks := by
    simp
  have h3 : user.pendingTasks.any (fun t => !isValidObjectId t) = false := by
    rw [List.any_eq_false]
    intro t ht
    simp [hids t ht]
  have h4 : ([] : List String).filter (fun t => !user.pendingTasks.contains t) = [] := rfl
  have huid : user.uid = uid := by simpa using List.find?_some hfind
  simp only [userUpdate, hp, Option.getD_none, h1, h2, hv, hfind, hrem, h3, h4,
    Bool.false_eq_true, if_false, if_true, Bool.not_true, Bool.and_false, List.isEmpty_nil,
    Bool.false_and, saveUser, unassignTasks]
  cases hpe : user.pendingTasks.isEmpty with
  | true =>
    have hnil : user.pendingTasks = [] := by simpa using hpe
    simp only [hpe, Bool.not_true, Bool.false_eq_true, if_false]
    refine ⟨by trivial, ?_, ?_⟩
    · intro t _ hmem
      rw [hnil] at hmem
      cases hmem
    · intro u2 hu2 hx
      rcases List.mem_map.mp hu2 with ⟨w, _, hw⟩
      by_cases hww : (w.uid == user.uid) = true
      · rw [if_pos hww] at hw
        rw [← hw]
      · rw [if_neg hww] at hw
        rw [← hw] at hx
        rw [← huid] at hx
        exact absurd (by simpa using hx) hww
  | false =>
    simp only [hpe, Bool.not_false, Bool.true_eq_false, if_true]
    refine ⟨by trivial, ?_, ?_⟩
    · intro t ht hmem
      rcases List.mem_map.mp ht with ⟨w, _, hw⟩
      by_cases hww : (user.pendingTasks.contains w.tid) = true
      · rw [if_pos hww] at hw
        rw [← hw]
        exact ⟨rfl, rfl⟩
      · rw [if_neg hww] at hw
        rw [← hw] at hmem
        exact absurd (by simpa using hmem) (by simpa using hww)
    · intro u2 hu2 hx
      rcases List.mem_map.mp hu2 with ⟨w, _, hw⟩
      by_cases hww : (w.uid == user.uid) = true
      · rw [if_pos hww] at hw
        rw [← hw]
      · rw [if_neg hww] at hw
        rw [← hw] at hx
        rw [← huid] at hx
        exact absurd (by simpa using hx) hww

/-- C9 witness: updating Al without a pendingTasks field unassigns Al's pending
task and empties Al's list. -/
theorem c9_put_user_missing_pendingTasks_clears_witness :
    (userUpdate uidA { name := "Al", email := "a@x.com" }
        { users := [{ userAl with pendingTasks := [tidC] }], tasks := [taskPendingAl] }).1.status = 200 ∧
    (∀ t ∈ ((userUpdate uidA { name := "Al", email := "a@x.com" }
        { users := [{ userAl with pendingTasks := [tidC] }], tasks := [taskPendingAl] }).2).tasks,
      t.tid ∈ ({ userAl with pendingTasks := [tidC] } : User).pendingTasks →
      t.assignedUser = "" ∧ t.assignedUserName = "unassigned") ∧
    (∀ u2 ∈ ((userUpdate uidA { name := "Al", email := "a@x.com" }
        { users := [{ userAl with pendingTasks := [tidC] }], tasks := [taskPendingAl] }).2).users,
      u2.uid = uidA → u2.pendingTasks = []) :=
  c9_put_user_missing_pendingTasks_clears
    { users := [{ userAl with pendingTasks := [tidC] }], tasks := [taskPendingAl] }
    uidA { name := "Al", email := "a@x.com" } { userAl with pendingTasks := [tidC] }
    (by decide) (by decide) (by decide) (by decide) (by decide) (by decide) (by decide)

/-- C7: creating a User with a pendingTasks list and then immediately updating
that User with the identical name, email and list succeeds and leaves every
stored Task untouched: the update's removed and added sets are both empty, so
no Task's assignedUser changes. -/
theorem c7_create_then_identical_update_noop (db : DB) (b : UserBody) (newId : String)
    (l : List String)
    (hp : b.pendingTasks = some l)
    (hn : b.name ≠ "") (he : b.email ≠ "")
    (hemail : ∀ u ∈ db.users, u.email ≠ b.email)
    (hv : isValidObjectId newId = true)
    (hfresh : ∀ u ∈ db.users, u.uid ≠ newId)
    (hids : ∀ t ∈ l, isValidObjectId t = true)
    (hnc : ∀ t ∈ db.tasks, t.tid ∈ l → t.completed = false) :
    (userCreate b newId db).1.status = 201 ∧
    (userUpdate newId b (userCreate b newId db).2).1.status = 200 ∧
    ((userUpdate newId b (userCreate b newId db).2).2).tasks =
      ((userCreate b newId db).2).tasks := by
  have h1 : (b.name == "" || b.email == "") = false := by simp [hn, he]
  have h2 : db.users.any (fun u => u.email == b.email) = false := by
    rw [List.any_eq_false]
    intro u hu
    simpa using hemail u hu
  have h3 : l.any (fun t => !isValidObjectId t) = false := by
    rw [List.any_eq_false]
    intro t ht
    simp [hids t ht]
  have h4 : (db.tasks.filter (fun t => l.contains t.tid)).filter (fun t => t.completed) = [] := by
    rw [List.filter_eq_nil_iff]
    intro t ht
    have ht2 := List.mem_filter.mp ht
    have hc := hnc t ht2.1 (by simpa using ht2.2)
    simp [hc]
  have hst : (userCreate b newId db).1.status = 201 := by
    simp only [userCreate, hp, Option.getD_some, h1, h2, h3, h4, Bool.false_eq_true, if_false,
      Bool.and_false, List.map_nil, List.isEmpty_nil, Bool.not_true, Bool.false_and]
  have hcre2 : ((userCreate b newId db).2).users =
      db.users ++ [{ uid := newId, name := b.name, email := b.email, pendingTasks := l }] := by
    simp only [userCreate, hp, Option.getD_some, h1, h2, h3, h4, Bool.false_eq_true, if_false,
      Bool.and_false, List.map_nil, List.isEmpty_nil, Bool.not_true, Bool.false_and]
    cases hle : l.isEmpty <;> simp [hle, assignTasks, saveNewUser]
  have hany2 : ((userCreate b newId db).2).users.any
      (fun w => w.email == b.email && w.uid != newId) = false := by
    rw [hcre2, List.any_eq_false]
    intro w hw
    rcases List.mem_append.mp hw with hw2 | hw2
    · simp [hemail w hw2]
    · simp only [List.mem_singleton] at hw2
      subst hw2
      simp
  have hu0 : findUserById newId (userCreate b newId db).2 =
      some { uid := newId, name := b.name, email := b.email, pendingTasks := l } := by
    rw [findUserById, hcre2,
      find?_append_right _ _ _ (fun w hw => by simp [hfresh w hw])]
    simp
  have e3 : l.filter (fun t => !l.contains t) = [] := by
    rw [List.filter_eq_nil_iff]
    intro t ht
    simp [ht]
  refine ⟨hst, ?_, ?_⟩
  · simp only [userUpdate, hp, Option.getD_some, h1, hv, hany2, hu0, e3, Bool.false_eq_true,
      if_false, if_true, List.isEmpty_nil, Bool.not_true, Bool.false_and, Bool.and_false,
      saveUser]
  · simp only [userUpdate, hp, Option.getD_some, h1, hv, hany2, hu0, e3, Bool.false_eq_true,
      if_false, if_true, List.isEmpty_nil, Bool.not_true, Bool.false_and, Bool.and_false,
      saveUser]

/-- C7 witness: creating Al with one pending id and immediately re-sending the
same document changes no task. -/
theorem c7_create_then_identical_update_noop_witness :
    (userCreate { name := "Al", email := "a@x.com", pendingTasks := some [tidC] } uidA {}).1.status = 201 ∧
    (userUpdate uidA { name := "Al", email := "a@x.com", pendingTasks := some [tidC] }
      (userCreate { name := "Al", email := "a@x.com", pendingTasks := some [tidC] } uidA {}).2).1.status = 200 ∧
    ((userUpdate uidA { name := "Al", email := "a@x.com", pendingTasks := some [tidC] }
      (userCreate { name := "Al", email := "a@x.com", pendingTasks := some [tidC] } uidA {}).2).2).tasks =
      ((userCreate { name := "Al", email := "a@x.com", pendingTasks := some [tidC] } uidA {}).2).tasks :=
  c7_create_then_identical_update_noop {} { name := "Al", email := "a@x.com", pendingTasks := some [tidC] }
    uidA [tidC] (by decide) (by decide) (by decide) (by decide) (by decide) (by decide)
    (by decide) (by decide)

/-- C3: when a PUT /api/users/:id succeeds and its new pendingTasks list adds a
Task id that was not in this user's stored list (and was pending for some other
User), afterwards no other User's pendingTasks contains that id: the handler
strips every added id from all other users. -/
theorem c3_reassigned_task_exclusive (db : DB) (uid taskId : String) (b : UserBody)
    (user : User) (r : Resp) (db2 : DB)
    (hfind : findUserById uid db = some user)
    (heq : userUpdate uid b db = (r, db2))
    (h200 : r.status = 200)
    (hmem : taskId ∈ b.pendingTasks.getD [])
    (hnew : taskId ∉ user.pendingTasks)
    (hother : ∃ u0 ∈ db.users, u0.uid ≠ uid ∧ taskId ∈ u0.pendingTasks) :
    ∀ u2 ∈ db2.users, u2.uid ≠ uid → taskId ∉ u2.pendingTasks := by
  clear hother
  have huid : user.uid = uid := by
    simpa using List.find?_some
      (show db.users.find? (fun u => u.uid == uid) = some user from hfind)
  have htA : taskId ∈ (b.pendingTasks.getD []).filter (fun t => !user.pendingTasks.contains t) :=
    List.mem_filter.mpr ⟨hmem, by simpa using hnew⟩
  have hcont : ((b.pendingTasks.getD []).filter
      (fun t => !user.pendingTasks.contains t)).contains taskId = true := by
    simpa using htA
  have htAne : ((b.pendingTasks.getD []).filter
      (fun t => !user.pendingTasks.contains t)).isEmpty = false := by
    cases hx : ((b.pendingTasks.getD []).filter
        (fun t => !user.pendingTasks.contains t)).isEmpty with
    | false => rfl
    | true =>
      have hnil : (b.pendingTasks.getD []).filter
          (fun t => !user.pendingTasks.contains t) = [] := by simpa using hx
      rw [hnil] at htA
      cases htA
  simp only [userUpdate, hfind, htAne, Bool.false_eq_true, if_false] at heq
  all_goals try split at heq
  all_goals try (have hkill := (congrArg Resp.status (Prod.mk.inj heq).1).trans h200; simp at hkill)
  all_goals try split at heq
  all_goals try (have hkill := (congrArg Resp.status (Prod.mk.inj heq).1).trans h200; simp at hkill)
  all_goals try split at heq
  all_goals try (have hkill := (congrArg Resp.status (Prod.mk.inj heq).1).trans h200; simp at hkill)
  all_goals try split at heq
  all_goals try (have hkill := (congrArg Resp.status (Prod.mk.inj heq).1).trans h200; simp at hkill)
  all_goals try split at heq
  all_goals try (have hkill := (congrArg Resp.status (Prod.mk.inj heq).1).trans h200; simp at hkill)
  all_goals try split at heq
  all_goals try (have hkill := (congrArg Resp.status (Prod.mk.inj heq).1).trans h200; simp at hkill)
  all_goals try split at heq
  all_goals try (have hkill := (congrArg Resp.status (Prod.mk.inj heq).1).trans h200; simp at hkill)
  all_goals try split at heq
  all_goals try (have hkill := (congrArg Resp.status (Prod.mk.inj heq).1).trans h200; simp at hkill)
  all_goals (
    rw [Prod.mk.injEq] at heq
    obtain ⟨hr, hdb⟩ := heq
    subst hdb
    intro u2 hu2 hne2
    simp only [saveUser, assignTasks, pullFromOtherUsers, unassignTasks] at hu2
    rcases List.mem_map.mp hu2 with ⟨w0, hw0, hww0⟩
    rcases List.mem_map.mp hw0 with ⟨w, hwdb, hwp⟩)
  all_goals (
    by_cases hs1 : (w0.uid == user.uid) = true
    · rw [if_pos hs1] at hww0
      rw [← hww0] at hne2
      exact absurd huid hne2
    · rw [if_neg hs1] at hww0
      subst hww0
      by_cases hs2 : (w.uid == uid) = true
      · rw [if_pos hs2] at hwp
        subst hwp
        exact absurd (by simpa using hs2) hne2
      · rw [if_neg hs2] at hwp
        subst hwp
        intro hmem2
        have hx := (List.mem_filter.mp hmem2).2
        rw [hcont] at hx
        exact absurd hx (by decide))

/-- C3 witness: moving the task pending for Bob into Al's list removes it from
Bob's stored list. -/
theorem c3_reassigned_task_exclusive_witness :
    tidC ∉ ({ uid := uidB, name := "Bob", email := "b@x.com", pendingTasks := [] } : User).pendingTasks :=
  c3_reassigned_task_exclusive
    { users := [userAl, { uid := uidB, name := "Bob", email := "b@x.com", pendingTasks := [tidC] }],
      tasks := [{ taskPendingAl with assignedUser := uidB, assignedUserName := "Bob" }] }
    uidA tidC { name := "Al", email := "a@x.com", pendingTasks := some [tidC] } userAl
    (userUpdate uidA { name := "Al", email := "a@x.com", pendingTasks := some [tidC] }
      { users := [userAl, { uid := uidB, name := "Bob", email := "b@x.com", pendingTasks := [tidC] }],
        tasks := [{ taskPendingAl with assignedUser := uidB, assignedUserName := "Bob" }] }).1
    (userUpdate uidA { name := "Al", email := "a@x.com", pendingTasks := some [tidC] }
      { users := [userAl, { uid := uidB, name := "Bob", email := "b@x.com", pendingTasks := [tidC] }],
        tasks := [{ taskPendingAl with assignedUser := uidB, assignedUserName := "Bob" }] }).2
    (by decide) rfl (by decide) (by decide) (by decide)
    ⟨{ uid := uidB, name := "Bob", email := "b@x.com", pendingTasks := [tidC] }, by decide, by decide, by decide⟩
    { uid := uidB, name := "Bob", email := "b@x.com", pendingTasks := [] }
    (by decide) (by decide)

end MpApi
